import Mathlib

/-!
Verification of the DHCP lease module of pyroute2 (`pyroute2/dhcp/leases.py`)
and of the hook orchestrator contract it is tested with.

The embedding mirrors the Python source:

* Python values that can appear in a decoded DHCP message or a JSON document
  are modelled by `PyValue` (numbers appear as exact rationals: Python's
  `json` round-trips finite floats exactly via shortest-repr, and all
  arithmetic in the source is plain `+`/`-`/`*`).
* Code that can raise is modelled with `Except PyErr`; each caught/uncaught
  exception path of the source is reproduced explicitly.
* `time.time()` (`_now()`) is passed in as an explicit `now : ℚ` parameter;
  `random.uniform(a, b)` is passed in as an explicit draw `u : ℚ` (the
  orchestration-level theorems quantify over the draw and, where relevant,
  constrain it to the interval the source requests).
-/

/-- A Python runtime value, as far as this module manipulates them. -/
inductive PyValue where
  | pyNone
  | pyBool (b : Bool)
  | pyInt (n : ℤ)
  | pyFloat (q : ℚ)
  | pyStr (s : String)
  | pyList (xs : List PyValue)
  | pyDict (kvs : List (String × PyValue))

/-- The DHCP options accessed through `LeaseOption` descriptors in
`leases.py` (`Option.SUBNET_MASK`, `Option.ROUTER`, ...). -/
inductive DhcpOption where
  | SUBNET_MASK
  | ROUTER
  | BROADCAST_ADDRESS
  | INTERFACE_MTU
  | NAME_SERVER
  | SERVER_ID
  | DOMAIN_NAME
  | DOMAIN_SEARCH
  deriving DecidableEq

/-- `self.opt.name.lower()`: the key under which an option is stored in
`ack['options']`. -/
def DhcpOption.key : DhcpOption → String
  | .SUBNET_MASK => "subnet_mask"
  | .ROUTER => "router"
  | .BROADCAST_ADDRESS => "broadcast_address"
  | .INTERFACE_MTU => "interface_mtu"
  | .NAME_SERVER => "name_server"
  | .SERVER_ID => "server_id"
  | .DOMAIN_NAME => "domain_name"
  | .DOMAIN_SEARCH => "domain_search"

/-- The exceptions the embedded code can raise.  `missingOption` is
`MissingOptionError(opt)` from `leases.py`; it carries the exact option it
names (the Python message is `f"Lease does not set {opt!r}"`). -/
inductive PyErr where
  | keyError (key : String)
  | typeError
  | indexError
  | jsonDecodeError
  | missingOption (opt : DhcpOption)
  deriving DecidableEq

/-- First-match lookup in a Python dict represented as an association list
(dicts produced by `json.load` have unique string keys). -/
def lookupKey (kvs : List (String × PyValue)) (k : String) : Option PyValue :=
  match kvs with
  | [] => Option.none
  | (k', v) :: rest => if k' = k then some v else lookupKey rest k

/-- Python subscript `v[k]` with a string key: on a dict it returns the value
or raises `KeyError(k)`; on any other value a string subscript raises
`TypeError` (`"string indices must be integers"`, `"list indices must be
integers"`, unsubscriptable, ...). -/
def pySubscript (v : PyValue) (k : String) : Except PyErr PyValue :=
  match v with
  | .pyDict kvs =>
    match lookupKey kvs k with
    | some x => .ok x
    | Option.none => .error (.keyError k)
  | _ => .error .typeError

/-- The numeric reading of a Python value under `+`/`-` with a float
(`bool` is an `int` in Python); `Option.none` means the arithmetic in
`_seconds_til_timer` would raise `TypeError`. -/
def pyToRat : PyValue → Option ℚ
  | .pyBool b => some (if b then 1 else 0)
  | .pyInt n => some (n : ℚ)
  | .pyFloat q => some q
  | _ => Option.none

/-- `Lease` from `leases.py`: a `@dataclass` holding the server's ack, the
interface name, the server MAC and the `obtained` timestamp.  The dataclass
performs no runtime type checking, so every field is an arbitrary Python
value (`JSONFileLease.load` can populate them with anything a JSON file
holds). -/
structure Lease where
  ack : PyValue
  interface : PyValue
  server_mac : PyValue
  obtained : PyValue

/-- `Lease._seconds_til_timer`: reads `ack['options'][f'{timer}_time']` and
returns `obtained + delta - now`; a `KeyError` from either subscript is
caught and turned into `None`, while a `TypeError` (non-dict `ack` or
`options`, non-numeric `obtained` or timer value) propagates, exactly as in
the source where only `KeyError` is caught. -/
def seconds_til_timer (l : Lease) (timer : String) (now : ℚ) :
    Except PyErr (Option ℚ) :=
  match pySubscript l.ack "options" with
  | .error (.keyError _) => .ok Option.none
  | .error e => .error e
  | .ok opts =>
    match pySubscript opts (timer ++ "_time") with
    | .error (.keyError _) => .ok Option.none
    | .error e => .error e
    | .ok delta =>
      match pyToRat l.obtained, pyToRat delta with
      | some o, some d => .ok (some (o + d - now))
      | _, _ => .error .typeError

/-- `Lease.expiration_in`: `self._seconds_til_timer('lease')`. -/
def expiration_in (l : Lease) (now : ℚ) : Except PyErr (Option ℚ) :=
  seconds_til_timer l "lease" now

/-- `Lease.expired`: `self.expiration_in is not None and self.expiration_in
<= 0`.  (The source reads the property twice, a few microseconds apart; the
embedding uses a single `now`, which only idealises that skew — whether the
value is `None` does not depend on `now` at all.) -/
def expired (l : Lease) (now : ℚ) : Except PyErr Bool :=
  match expiration_in l now with
  | .error e => .error e
  | .ok Option.none => .ok false
  | .ok (some v) => .ok (decide (v ≤ 0))

/-- The fallback branch shared by `renewal_in` and `rebinding_in`:
`self.expiration_in * random.uniform(a, b)` with draw `u`.  When
`expiration_in` is `None` (no `lease_time`), `None * float` raises
`TypeError` — the `FIXME will crash if there is no lease time` in the
source. -/
def timerFallback (l : Lease) (now : ℚ) (u : ℚ) : Except PyErr ℚ :=
  match expiration_in l now with
  | .error e => .error e
  | .ok (some ex) => .ok (ex * u)
  | .ok Option.none => .error .typeError

/-- `Lease.renewal_in`: `if lease_renewal := self._seconds_til_timer
('renewal'): return lease_renewal`, else the jittered fallback.  The walrus
test is Python *truthiness*: both `None` and `0.0` fall through to the
fallback, so an explicit `renewal_time` whose remaining delta is exactly
zero is treated as if absent. -/
def renewal_in (l : Lease) (now : ℚ) (u : ℚ) : Except PyErr ℚ :=
  match seconds_til_timer l "renewal" now with
  | .error e => .error e
  | .ok (some r) => if r = 0 then timerFallback l now u else .ok r
  | .ok Option.none => timerFallback l now u

/-- `Lease.rebinding_in`: same shape as `renewal_in` with the `rebinding`
timer and a draw in `[0.75, 0.90]`. -/
def rebinding_in (l : Lease) (now : ℚ) (u : ℚ) : Except PyErr ℚ :=
  match seconds_til_timer l "rebinding" now with
  | .error e => .error e
  | .ok (some r) => if r = 0 then timerFallback l now u else .ok r
  | .ok Option.none => timerFallback l now u

/-- `LeaseOption.__get__`: `if opt_name not in obj.ack['options']: raise
MissingOptionError(self.opt)`, else return `obj.ack['options'][opt_name]`
unchanged.  The `obj.ack['options']` subscript itself is outside any
`try`, so its `KeyError`/`TypeError` propagates.  Membership on a non-dict
`options` value is modelled coarsely as `TypeError` (the lease code only
ever stores a dict there; a decoded ack's `options` field is a mapping). -/
def lease_option (l : Lease) (opt : DhcpOption) : Except PyErr PyValue :=
  match pySubscript l.ack "options" with
  | .error e => .error e
  | .ok (.pyDict kvs) =>
    match lookupKey kvs opt.key with
    | some v => .ok v
    | Option.none => .error (.missingOption opt)
  | .ok _ => .error .typeError

/-- `subnet_mask = LeaseOption[str](Option.SUBNET_MASK)` -/
def Lease.subnet_mask (l : Lease) : Except PyErr PyValue :=
  lease_option l .SUBNET_MASK

/-- `routers = LeaseOption[list[str]](Option.ROUTER)` -/
def Lease.routers (l : Lease) : Except PyErr PyValue :=
  lease_option l .ROUTER

/-- `broadcast_address = LeaseOption[str](Option.BROADCAST_ADDRESS)` -/
def Lease.broadcast_address (l : Lease) : Except PyErr PyValue :=
  lease_option l .BROADCAST_ADDRESS

/-- `mtu = LeaseOption[int](Option.INTERFACE_MTU)` -/
def Lease.mtu (l : Lease) : Except PyErr PyValue :=
  lease_option l .INTERFACE_MTU

/-- `name_servers = LeaseOption[list[str]](Option.NAME_SERVER)` -/
def Lease.name_servers (l : Lease) : Except PyErr PyValue :=
  lease_option l .NAME_SERVER

/-- `server_id = LeaseOption[str](Option.SERVER_ID)` -/
def Lease.server_id (l : Lease) : Except PyErr PyValue :=
  lease_option l .SERVER_ID

/-- `domain_name = LeaseOption[str](Option.DOMAIN_NAME)` -/
def Lease.domain_name (l : Lease) : Except PyErr PyValue :=
  lease_option l .DOMAIN_NAME

/-- `domain_search = LeaseOption[list[str]](Option.DOMAIN_SEARCH)` -/
def Lease.domain_search (l : Lease) : Except PyErr PyValue :=
  lease_option l .DOMAIN_SEARCH

/-- `Lease.ip`: `self.ack['yiaddr']`. -/
def Lease.ip (l : Lease) : Except PyErr PyValue :=
  pySubscript l.ack "yiaddr"

/-- `Lease.default_gateway`: `return self.routers[0]`.  Indexing an empty
list raises `IndexError`; a `MissingOptionError` from the `routers`
property propagates; `str[0]` on a non-empty string yields its first
character; indexing a number or `None` with `0` raises `TypeError`.
(`dict[0]` would raise a `KeyError` with an integer key; modelled coarsely
as `TypeError` — the router option is never a dict.) -/
def Lease.default_gateway (l : Lease) : Except PyErr PyValue :=
  match l.routers with
  | .error e => .error e
  | .ok (.pyList []) => .error .indexError
  | .ok (.pyList (g :: _)) => .ok g
  | .ok (.pyStr s) =>
    match s.toList with
    | [] => .error .indexError
    | c :: _ => .ok (.pyStr (String.mk [c]))
  | .ok _ => .error .typeError

/-- The f-string keys `f'{timer_name}_time'` used by `_seconds_til_timer`. -/
@[simp]
theorem lease_time_key : ("lease" ++ "_time" : String) = "lease_time" := rfl

@[simp]
theorem renewal_time_key : ("renewal" ++ "_time" : String) = "renewal_time" :=
  rfl

@[simp]
theorem rebinding_time_key :
    ("rebinding" ++ "_time" : String) = "rebinding_time" := rfl

example :
    expired ⟨.pyDict [("options", .pyDict [("lease_time", .pyInt 120)])],
      .pyStr "eth0", .pyStr "mac", .pyFloat 0⟩ 121 = .ok true := by
  norm_num [expired, expiration_in, seconds_til_timer, pySubscript, lookupKey,
    pyToRat]

/-! ## Persistence: `JSONFileLease` -/

/-- The decoded content of a lease file.  `jsonText v` stands for a file
whose text is well-formed JSON decoding to the Python value `v` (Python's
`json` round-trips strings, ints, finite floats, lists and string-keyed
dicts losslessly); `invalid` stands for any file text that is not valid
JSON, on which `json.load` raises `json.JSONDecodeError`. -/
inductive FileContent where
  | jsonText (v : PyValue)
  | invalid

/-- The file system as seen through `Path.open`: maps a path to the content
of the file there, `Option.none` when opening raises `FileNotFoundError`. -/
def FileStore := String → Option FileContent

/-- `dataclasses.asdict(self)` on a `Lease`: the field-name-keyed dict that
`dump` serializes. -/
def asdict (l : Lease) : PyValue :=
  .pyDict [("ack", l.ack), ("interface", l.interface),
           ("server_mac", l.server_mac), ("obtained", l.obtained)]

/-- The index of the last `'.'` in a list of characters (Python
`str.rfind('.')`, as `Option`). -/
def rfindDot : List Char → Option Nat
  | [] => Option.none
  | c :: rest =>
    match rfindDot rest with
    | some i => some (i + 1)
    | Option.none => if c = '.' then some 0 else Option.none

/-- `PurePath.with_suffix(suffix)` on a path whose final component is
`name`: the old suffix (the substring from the last dot, when that dot is
neither the first nor the last character) is dropped and `suffix` is
appended. -/
def with_suffix (name : String) (suffix : String) : String :=
  match rfindDot name.toList with
  | some i =>
    if 0 < i ∧ i + 1 < name.toList.length
    then String.mk (name.toList.take i) ++ suffix
    else name ++ suffix
  | Option.none => name ++ suffix

/-- `JSONFileLease._get_path`: `cls._get_lease_dir().joinpath(interface)
.with_suffix('.lease.json')`.  The lease directory (`Path.cwd()`) is passed
in as `cwd`; joining then taking `with_suffix` rewrites the final
component, i.e. the interface name. -/
def get_path (cwd : String) (interface : String) : String :=
  cwd ++ "/" ++ with_suffix interface ".lease.json"

/-- `JSONFileLease.dump`: writes `json.dump(asdict(self))` to
`self._get_path(self.interface)`.  Joining a non-`str` interface onto a
path raises `TypeError`.  Returns the updated file store. -/
def JSONFileLease.dump (l : Lease) (cwd : String) (store : FileStore) :
    Except PyErr FileStore :=
  match l.interface with
  | .pyStr ifname =>
    .ok (fun p => if p = get_path cwd ifname
                  then some (.jsonText (asdict l)) else store p)
  | _ => .error .typeError

/-- `cls(**record)`: calling the `Lease` dataclass constructor with the
decoded JSON record as keyword arguments.  It raises `TypeError` when the
record is not a mapping, has an unexpected key, or misses a required field;
`obtained` defaults to `_now()` when absent.  No value is inspected. -/
def constructLease (v : PyValue) (now : ℚ) : Except PyErr Lease :=
  match v with
  | .pyDict kvs =>
    if (kvs.map Prod.fst).all
        (fun k => ["ack", "interface", "server_mac", "obtained"].contains k)
    then
      match lookupKey kvs "ack", lookupKey kvs "interface",
            lookupKey kvs "server_mac" with
      | some a, some i, some s =>
        .ok ⟨a, i, s, (lookupKey kvs "obtained").getD (.pyFloat now)⟩
      | _, _, _ => .error .typeError
    else .error .typeError
  | _ => .error .typeError

/-- `JSONFileLease.load`: opens `cls._get_path(interface)` and returns
`cls(**json.load(lf))`.  `FileNotFoundError` and `TypeError` are caught and
turned into `None`; a `json.JSONDecodeError` from malformed file text is
*not* caught and propagates. -/
def JSONFileLease.load (store : FileStore) (cwd : String)
    (interface : String) (now : ℚ) : Except PyErr (Option Lease) :=
  match store (get_path cwd interface) with
  | Option.none => .ok Option.none
  | some .invalid => .error .jsonDecodeError
  | some (.jsonText v) =>
    match constructLease v now with
    | .ok l => .ok (some l)
    | .error .typeError => .ok Option.none
    | .error e => .error e

/-- `JSONStdoutLease.load`: `return None`, always. -/
def JSONStdoutLease.load (_interface : String) : Option Lease :=
  Option.none

/-! ## Hook orchestrator

The hook module (`pyroute2/dhcp/hooks.py`) is not among the given source
files; only its tests (`test_hooks.py`) are.  The definitions below are
therefore modelled from the spec rather than translated from code. -/

/-- Modelled from the spec: the lifecycle triggers at which hooks run
("lease obtained, renewed, rebound, lost"); `hooks.Trigger` is missing from
the given sources.  Only equality of triggers matters to this core. -/
inductive Trigger where
  | BOUND
  | RENEWED
  | REBOUND
  | EXPIRED
  deriving DecidableEq

/-- Modelled from the spec: what a hook does when invoked on a lease;
`hooks.py` is missing from the given sources.  A hook either completes
after `d` seconds, raises after `d` seconds with a failure description, or
never finishes. -/
inductive HookBehavior where
  | completes (d : ℚ)
  | raises (d : ℚ) (desc : String)
  | hangs

/-- Modelled from the spec: a named unit of behavior taking the lease;
`hooks.hook` registration attaches the name used in log messages. -/
structure Hook where
  name : String
  behavior : Lease → HookBehavior

/-- Modelled from the spec: the terminal outcome the orchestrator records
for one hook — completed, timed out, or failed. -/
inductive HookOutcome where
  | success
  | timedOut
  | failed (desc : String)
  deriving DecidableEq

/-- Modelled from the spec: running one hook under `timeout` seconds.
A hook that completes (or raises) within the timeout yields `success`
(resp. `failed` with the log line `"Hook <name> failed: <desc>"`); one that
is still running at the deadline is cancelled, yielding `timedOut` and the
log line `"Hook '<name>' timed out"`. -/
def runOneHook (timeout : ℚ) (lease : Lease) (h : Hook) :
    HookOutcome × List String :=
  match h.behavior lease with
  | .completes d =>
    if d ≤ timeout then (.success, [])
    else (.timedOut, ["Hook '" ++ h.name ++ "' timed out"])
  | .raises d desc =>
    if d ≤ timeout then (.failed desc, ["Hook " ++ h.name ++ " failed: " ++ desc])
    else (.timedOut, ["Hook '" ++ h.name ++ "' timed out"])
  | .hangs => (.timedOut, ["Hook '" ++ h.name ++ "' timed out"])

/-- Modelled from the spec: `hooks.run_hooks(hooks, lease, trigger,
timeout)`.  Every hook in the sequence is run under its own timeout; each
failure or timeout is contained and logged; the call returns the recorded
terminal outcome of every hook together with the emitted log lines — it is
a total function of its inputs, so no hook misbehavior makes it raise. -/
def run_hooks (hks : List Hook) (lease : Lease) (trigger : Trigger)
    (timeout : ℚ) : List (String × HookOutcome) × List String :=
  match hks with
  | [] => ([], [])
  | h :: rest =>
    ((h.name, (runOneHook timeout lease h).1)
        :: (run_hooks rest lease trigger timeout).1,
     (runOneHook timeout lease h).2
        ++ (run_hooks rest lease trigger timeout).2)

/-! ## Concrete leases for witnesses, taken from `FAKE_LEASE` in
`test_hooks.py` (with `obtained = 0` chosen as the concrete timestamp). -/

/-- The option set of the fake ack in `test_hooks.py`. -/
def fakeOptions : List (String × PyValue) :=
  [("message_type", .pyInt 5),
   ("server_id", .pyStr "192.168.112.1"),
   ("lease_time", .pyInt 120),
   ("renewal_time", .pyInt 60),
   ("rebinding_time", .pyInt 105),
   ("subnet_mask", .pyStr "255.255.255.0"),
   ("broadcast_address", .pyStr "192.168.112.255"),
   ("router", .pyList [.pyStr "192.168.112.1"]),
   ("name_server", .pyList [.pyStr "192.168.112.1"])]

/-- The fake ack (only the fields this module reads). -/
def fakeAck : PyValue :=
  .pyDict [("yiaddr", .pyStr "192.168.112.73"),
           ("options", .pyDict fakeOptions)]

/-- The fake lease, obtained at time 0. -/
def fakeLease : Lease :=
  ⟨fakeAck, .pyStr "eth0", .pyStr "2e:7e:7d:8e:5f:5f", .pyFloat 0⟩

/-- A lease whose ack sets only `subnet_mask`: no timers, no router, no
broadcast address. -/
def noTimersLease : Lease :=
  ⟨.pyDict [("options", .pyDict [("subnet_mask", .pyStr "255.255.255.0")])],
   .pyStr "eth0", .pyStr "mac", .pyFloat 0⟩

/-- A lease whose `router` option decoded to an empty list. -/
def emptyRoutersLease : Lease :=
  ⟨.pyDict [("options", .pyDict [("router", .pyList [])])],
   .pyStr "eth0", .pyStr "mac", .pyFloat 0⟩

/-! ## Claims -/

/-- C5: for every lease (with a well-formed options mapping) and every read
time, `expired` is `ok true` exactly when `expiration_in` is defined
(`lease_time` present and readable) with value ≤ 0; and when the
`lease_time` option is absent, `expired` returns `ok false` without
raising. -/
theorem C5_expired_iff (l : Lease) (now : ℚ) (kvs : List (String × PyValue))
    (hopts : pySubscript l.ack "options" = .ok (.pyDict kvs)) :
    (expired l now = .ok true ↔
      ∃ q, expiration_in l now = .ok (some q) ∧ q ≤ 0)
    ∧ (lookupKey kvs "lease_time" = Option.none →
        expired l now = .ok false) := by
  constructor
  · unfold expired
    cases h : expiration_in l now with
    | error e => simp
    | ok o =>
      cases o with
      | none => simp
      | some v => simp [decide_eq_true_iff]
  · intro hnone
    unfold expired expiration_in seconds_til_timer
    rw [hopts]
    simp [pySubscript, lease_time_key, hnone]

/-- C5 witness: a lease without `lease_time` is not expired and `expired`
returns normally. -/
theorem C5_witness : expired noTimersLease 5 = .ok false :=
  (C5_expired_iff noTimersLease 5
    [("subnet_mask", .pyStr "255.255.255.0")] rfl).2 rfl

/-- C6: each lease option property is the `LeaseOption` descriptor with its
fixed option baked in; for every option, accessing it when the options
mapping lacks its key raises `MissingOptionError` carrying exactly that
option, and when the key is present the decoded value is returned
unchanged. -/
theorem C6_option_access (l : Lease) (opt : DhcpOption)
    (kvs : List (String × PyValue)) (v : PyValue)
    (hopts : pySubscript l.ack "options" = .ok (.pyDict kvs)) :
    (Lease.subnet_mask l = lease_option l .SUBNET_MASK
      ∧ Lease.routers l = lease_option l .ROUTER
      ∧ Lease.broadcast_address l = lease_option l .BROADCAST_ADDRESS
      ∧ Lease.mtu l = lease_option l .INTERFACE_MTU
      ∧ Lease.name_servers l = lease_option l .NAME_SERVER
      ∧ Lease.server_id l = lease_option l .SERVER_ID
      ∧ Lease.domain_name l = lease_option l .DOMAIN_NAME
      ∧ Lease.domain_search l = lease_option l .DOMAIN_SEARCH)
    ∧ (lookupKey kvs opt.key = Option.none →
        lease_option l opt = .error (.missingOption opt))
    ∧ (lookupKey kvs opt.key = some v → lease_option l opt = .ok v) := by
  refine ⟨⟨rfl, rfl, rfl, rfl, rfl, rfl, rfl, rfl⟩, ?_, ?_⟩
  · intro hnone
    unfold lease_option
    rw [hopts]
    simp [hnone]
  · intro hsome
    unfold lease_option
    rw [hopts]
    simp [hsome]

/-- C6 witness: reading `broadcast_address` from an ack that lacks it
raises `MissingOptionError(Option.BROADCAST_ADDRESS)`; reading
`subnet_mask` from the fake ack returns the stored string unchanged. -/
theorem C6_witness :
    lease_option noTimersLease .BROADCAST_ADDRESS
        = .error (.missingOption .BROADCAST_ADDRESS)
    ∧ lease_option fakeLease .SUBNET_MASK = .ok (.pyStr "255.255.255.0") :=
  ⟨(C6_option_access noTimersLease .BROADCAST_ADDRESS
      [("subnet_mask", .pyStr "255.255.255.0")] (.pyNone) rfl).2.1 rfl,
   (C6_option_access fakeLease .SUBNET_MASK fakeOptions
      (.pyStr "255.255.255.0") rfl).2.2 rfl⟩

/-- C4: `default_gateway` returns the first element of the `routers`
option; an absent router option raises `MissingOptionError(Option.ROUTER)`;
a router option that decoded to an empty list raises `IndexError` — a loud
failure, distinct from the missing-option condition and from any returned
value, not a sentinel. -/
theorem C4_default_gateway (l : Lease) (kvs : List (String × PyValue))
    (g : PyValue) (gs : List PyValue)
    (hopts : pySubscript l.ack "options" = .ok (.pyDict kvs)) :
    (lookupKey kvs "router" = Option.none →
      Lease.default_gateway l = .error (.missingOption .ROUTER))
    ∧ (lookupKey kvs "router" = some (.pyList []) →
      Lease.default_gateway l = .error .indexError)
    ∧ (lookupKey kvs "router" = some (.pyList (g :: gs)) →
      Lease.default_gateway l = .ok g)
    ∧ PyErr.indexError ≠ PyErr.missingOption .ROUTER := by
  refine ⟨?_, ?_, ?_, by simp⟩
  · intro hnone
    unfold Lease.default_gateway Lease.routers lease_option
    rw [hopts]
    simp [DhcpOption.key, hnone]
  · intro hempty
    unfold Lease.default_gateway Lease.routers lease_option
    rw [hopts]
    simp [DhcpOption.key, hempty]
  · intro hcons
    unfold Lease.default_gateway Lease.routers lease_option
    rw [hopts]
    simp [DhcpOption.key, hcons]

/-- C4 witness: the fake lease's gateway is the single router; a lease with
an empty router list raises `IndexError`; one without the option raises
`MissingOptionError(Option.ROUTER)`. -/
theorem C4_witness :
    Lease.default_gateway fakeLease = .ok (.pyStr "192.168.112.1")
    ∧ Lease.default_gateway emptyRoutersLease = .error .indexError
    ∧ Lease.default_gateway noTimersLease
        = .error (.missingOption .ROUTER) :=
  ⟨(C4_default_gateway fakeLease fakeOptions (.pyStr "192.168.112.1") []
      rfl).2.2.1 rfl,
   (C4_default_gateway emptyRoutersLease [("router", .pyList [])]
      (.pyNone) [] rfl).2.1 rfl,
   (C4_default_gateway noTimersLease
      [("subnet_mask", .pyStr "255.255.255.0")] (.pyNone) [] rfl).1 rfl⟩

/-! ## Timer lemmas shared by the renewal/rebinding claims -/

/-- `_seconds_til_timer` when the timer option is present with a readable
numeric value and `obtained` is numeric. -/
theorem seconds_til_timer_eq (l : Lease) (timer : String) (now t d : ℚ)
    (kvs : List (String × PyValue)) (dv : PyValue)
    (hopts : pySubscript l.ack "options" = .ok (.pyDict kvs))
    (hobt : pyToRat l.obtained = some t)
    (hd : lookupKey kvs (timer ++ "_time") = some dv)
    (hdq : pyToRat dv = some d) :
    seconds_til_timer l timer now = .ok (some (t + d - now)) := by
  unfold seconds_til_timer
  rw [hopts]
  simp [pySubscript, hd, hdq, hobt]

/-- `_seconds_til_timer` when the timer option is absent: the `KeyError` is
caught and `None` is returned. -/
theorem seconds_til_timer_absent (l : Lease) (timer : String) (now : ℚ)
    (kvs : List (String × PyValue))
    (hopts : pySubscript l.ack "options" = .ok (.pyDict kvs))
    (hd : lookupKey kvs (timer ++ "_time") = Option.none) :
    seconds_til_timer l timer now = .ok Option.none := by
  unfold seconds_til_timer
  rw [hopts]
  simp [pySubscript, hd]

/-- C2 (amended): with an explicit numeric `renewal_time` R (resp.
`rebinding_time` B), `renewal_in` (resp. `rebinding_in`) equals
`obtained + R − now` (resp. `obtained + B − now`), with no jitter (the
draw `u` is arbitrary and unused) and independent of the `lease_time`
option — *provided* that quantity is nonzero; when it is exactly zero the
walrus truthiness test treats the timer as unset and the jittered fallback
is returned instead (see the counterexample). -/
theorem C2_renewal_rebinding_explicit (l : Lease)
    (kvs : List (String × PyValue)) (rv bv : PyValue) (t R B now u : ℚ)
    (hopts : pySubscript l.ack "options" = .ok (.pyDict kvs))
    (hobt : pyToRat l.obtained = some t)
    (hR : lookupKey kvs "renewal_time" = some rv)
    (hRq : pyToRat rv = some R)
    (hB : lookupKey kvs "rebinding_time" = some bv)
    (hBq : pyToRat bv = some B)
    (hRnz : t + R - now ≠ 0) (hBnz : t + B - now ≠ 0) :
    renewal_in l now u = .ok (t + R - now)
    ∧ rebinding_in l now u = .ok (t + B - now) := by
  constructor
  · unfold renewal_in
    rw [seconds_til_timer_eq l "renewal" now t R kvs rv hopts hobt
      (by rw [renewal_time_key]; exact hR) hRq]
    simp [hRnz]
  · unfold rebinding_in
    rw [seconds_til_timer_eq l "rebinding" now t B kvs bv hopts hobt
      (by rw [rebinding_time_key]; exact hB) hBq]
    simp [hBnz]

/-- C2 witness: the fake lease (obtained 0, `renewal_time` 60,
`rebinding_time` 105, `lease_time` 120) read at time 10 with draw 1/2:
`renewal_in` is 0 + 60 − 10 and `rebinding_in` is 0 + 105 − 10 — the draw
and the lease time play no part. -/
theorem C2_witness :
    renewal_in fakeLease 10 (1/2) = .ok (0 + 60 - 10)
    ∧ rebinding_in fakeLease 10 (1/2) = .ok (0 + 105 - 10) :=
  C2_renewal_rebinding_explicit fakeLease fakeOptions (.pyInt 60)
    (.pyInt 105) 0 60 105 10 (1/2) rfl rfl rfl (by norm_num [pyToRat])
    rfl (by norm_num [pyToRat]) (by norm_num) (by norm_num)

/-- C2 counterexample: read exactly when the renewal timer elapses
(`now = obtained + renewal_time = 60`), the fake lease's `renewal_in` is
*not* `obtained + renewal_time − now = 0`: the walrus `if lease_renewal :=
...` treats the falsy value `0.0` as absent and returns the jittered
fallback `expiration_in × u` — here `(0 + 120 − 60) × 1/2 = 30`. -/
theorem C2_counterexample :
    renewal_in fakeLease 60 (1/2) = .ok 30
    ∧ (Except.ok (30 : ℚ) : Except PyErr ℚ) ≠ .ok (0 + 60 - 60) := by
  have h1 : seconds_til_timer fakeLease "renewal" 60 = .ok (some 0) := by
    rw [seconds_til_timer_eq fakeLease "renewal" 60 0 60 fakeOptions
      (.pyInt 60) rfl rfl rfl (by norm_num [pyToRat])]
    norm_num
  have h2 : expiration_in fakeLease 60 = .ok (some 60) := by
    unfold expiration_in
    rw [seconds_til_timer_eq fakeLease "lease" 60 0 120 fakeOptions
      (.pyInt 120) rfl rfl rfl (by norm_num [pyToRat])]
    norm_num
  constructor
  · unfold renewal_in
    rw [h1]
    norm_num [timerFallback, h2]
  · norm_num

/-- C7 (amended): when `renewal_time` (resp. `rebinding_time`) is absent
and `expiration_in` is a defined value E, every sample of `renewal_in`
(resp. `rebinding_in`) equals `E × u` for the fresh uniform draw u — hence
lies within `[0.4, 0.6] × E` (resp. `[0.75, 0.90] × E`) — and distinct
draws give distinct samples *provided E ≠ 0*; when E = 0 every sample is 0,
so repeated reads can all be identical (see the counterexample).  The draw
is consumed on every access: nothing is cached. -/
theorem C7_fallback_jitter (l : Lease) (kvs : List (String × PyValue))
    (now E : ℚ)
    (hopts : pySubscript l.ack "options" = .ok (.pyDict kvs))
    (hnoR : lookupKey kvs "renewal_time" = Option.none)
    (hnoB : lookupKey kvs "rebinding_time" = Option.none)
    (hE : expiration_in l now = .ok (some E)) :
    (∀ u, renewal_in l now u = .ok (E * u))
    ∧ (∀ u, 2/5 ≤ u → u ≤ 3/5 → 0 ≤ E → 2/5 * E ≤ E * u ∧ E * u ≤ 3/5 * E)
    ∧ (∀ u₁ u₂, E ≠ 0 → u₁ ≠ u₂ →
        renewal_in l now u₁ ≠ renewal_in l now u₂)
    ∧ (∀ u, rebinding_in l now u = .ok (E * u))
    ∧ (∀ u, 3/4 ≤ u → u ≤ 9/10 → 0 ≤ E →
        3/4 * E ≤ E * u ∧ E * u ≤ 9/10 * E)
    ∧ (∀ u₁ u₂, E ≠ 0 → u₁ ≠ u₂ →
        rebinding_in l now u₁ ≠ rebinding_in l now u₂) := by
  have hren : ∀ u, renewal_in l now u = .ok (E * u) := by
    intro u
    unfold renewal_in
    rw [seconds_til_timer_absent l "renewal" now kvs hopts
      (by rw [renewal_time_key]; exact hnoR)]
    unfold timerFallback
    rw [hE]
  have hreb : ∀ u, rebinding_in l now u = .ok (E * u) := by
    intro u
    unfold rebinding_in
    rw [seconds_til_timer_absent l "rebinding" now kvs hopts
      (by rw [rebinding_time_key]; exact hnoB)]
    unfold timerFallback
    rw [hE]
  refine ⟨hren, ?_, ?_, hreb, ?_, ?_⟩
  · intro u h1 h2 h0
    constructor <;> nlinarith
  · intro u₁ u₂ hEnz hne
    rw [hren u₁, hren u₂]
    intro h
    exact hne (mul_left_cancel₀ hEnz (by injection h))
  · intro u h1 h2 h0
    constructor <;> nlinarith
  · intro u₁ u₂ hEnz hne
    rw [hreb u₁, hreb u₂]
    intro h
    exact hne (mul_left_cancel₀ hEnz (by injection h))

/-- A lease carrying only `lease_time` (100 seconds, obtained at 0). -/
def noRenewalLease : Lease :=
  ⟨.pyDict [("options", .pyDict [("lease_time", .pyInt 100)])],
   .pyStr "eth0", .pyStr "mac", .pyFloat 0⟩

/-- C7 witness: at time 20 the lease without renewal/rebinding times has
`expiration_in = 0 + 100 − 20`; samples with draws 1/2 and 4/5 are that
value scaled, and the extreme renewal draws 2/5 and 3/5 give distinct
samples. -/
theorem C7_witness :
    renewal_in noRenewalLease 20 (1/2) = .ok ((0 + 100 - 20) * (1/2))
    ∧ rebinding_in noRenewalLease 20 (4/5) = .ok ((0 + 100 - 20) * (4/5))
    ∧ renewal_in noRenewalLease 20 (2/5) ≠ renewal_in noRenewalLease 20 (3/5) := by
  have h := C7_fallback_jitter noRenewalLease
    [("lease_time", .pyInt 100)] 20 (0 + 100 - 20) rfl rfl rfl
    (seconds_til_timer_eq noRenewalLease "lease" 20 0 100
      [("lease_time", .pyInt 100)] (.pyInt 100) rfl rfl rfl
      (by norm_num [pyToRat]))
  exact ⟨h.1 (1/2), h.2.2.2.1 (4/5),
    h.2.2.1 (2/5) (3/5) (by norm_num) (by norm_num)⟩

/-- All renewal samples of a lease at a read time coincide at 0, whatever
the uniform draw: the claim's "samples are not all identical across
repeated reads" fails here. -/
def renewalSamplesAllZero (l : Lease) (now : ℚ) : Prop :=
  ∀ u, renewal_in l now u = .ok 0

/-- C7 counterexample: read exactly at expiry (`now = obtained +
lease_time = 100`), `expiration_in = 0`, and every fallback sample of
`renewal_in` equals `0 × u = 0`: repeated reads are all identical, against
the claim's "samples are not all identical across repeated reads". -/
theorem C7_counterexample :
    renewalSamplesAllZero noRenewalLease 100
    ∧ renewal_in noRenewalLease 100 (2/5)
        = renewal_in noRenewalLease 100 (3/5) := by
  have h := C7_fallback_jitter noRenewalLease
    [("lease_time", .pyInt 100)] 100 (0 + 100 - 100) rfl rfl rfl
    (seconds_til_timer_eq noRenewalLease "lease" 100 0 100
      [("lease_time", .pyInt 100)] (.pyInt 100) rfl rfl rfl
      (by norm_num [pyToRat]))
  have hz : ∀ u, renewal_in noRenewalLease 100 u = .ok 0 := by
    intro u
    rw [h.1 u]
    norm_num
  exact ⟨hz, by rw [hz (2/5), hz (3/5)]⟩

/-! ## Persistence claims -/

/-- A file system with no lease files. -/
def emptyStore : FileStore := fun _ => Option.none

/-- A file system holding exactly one file, at `path`. -/
def singleFileStore (path : String) (content : FileContent) : FileStore :=
  fun p => if p = path then some content else Option.none

/-- C3: `load` on a missing file returns `None` (the `FileNotFoundError` is
caught); `load` on content that is valid JSON but does not match the
dataclass signature returns `None` (the `TypeError` is caught); but `load`
on file text that is not valid JSON *raises* `json.JSONDecodeError`, which
the source's `except (FileNotFoundError, TypeError)` clauses do not catch —
against the documented soft-fail contract. -/
theorem C3_load_behavior :
    JSONFileLease.load emptyStore "/cwd" "eth0" 0 = .ok Option.none
    ∧ JSONFileLease.load
        (singleFileStore (get_path "/cwd" "eth0") (.jsonText (.pyList [])))
        "/cwd" "eth0" 0 = .ok Option.none
    ∧ JSONFileLease.load
        (singleFileStore (get_path "/cwd" "eth0") .invalid)
        "/cwd" "eth0" 0 = .error .jsonDecodeError :=
  ⟨rfl, rfl, rfl⟩

/-- C8: round-trip.  Dumping a lease and loading it back for the same
interface succeeds and returns the identical record — in particular the
same `ip`, `subnet_mask`, `obtained` (numbers are exact: Python's `json`
round-trips finite floats bit-for-bit via shortest repr) and the same full
option set. -/
theorem C8_roundtrip (l : Lease) (store : FileStore) (cwd ifname : String)
    (now : ℚ) (hif : l.interface = .pyStr ifname) :
    ∃ store', JSONFileLease.dump l cwd store = .ok store'
      ∧ JSONFileLease.load store' cwd ifname now = .ok (some l) := by
  refine ⟨fun p => if p = get_path cwd ifname
    then some (.jsonText (asdict l)) else store p, ?_, ?_⟩
  · unfold JSONFileLease.dump
    rw [hif]
  · unfold JSONFileLease.load
    simp [asdict, constructLease, lookupKey]

/-- C8 witness: dumping the fake lease into an empty working directory and
loading it back for `eth0` returns it unchanged. -/
theorem C8_witness :
    ∃ store', JSONFileLease.dump fakeLease "/cwd" emptyStore = .ok store'
      ∧ JSONFileLease.load store' "/cwd" "eth0" 0 = .ok (some fakeLease) :=
  C8_roundtrip fakeLease emptyStore "/cwd" "eth0" 0 rfl

/-- A lease whose interface is the VLAN-style name `eth0.100`. -/
def vlanLease : Lease :=
  ⟨fakeAck, .pyStr "eth0.100", .pyStr "2e:7e:7d:8e:5f:5f", .pyFloat 0⟩

/-- C9: `_get_path` is not injective — `with_suffix('.lease.json')` drops
everything after the interface name's last dot, so `eth0.100` and
`eth0.200` share the path `eth0.lease.json`, and a lease dumped for
`eth0.100` is returned by a load for `eth0.200`. -/
theorem C9_path_collision :
    get_path "/cwd" "eth0.100" = get_path "/cwd" "eth0.200"
    ∧ ("eth0.100" : String) ≠ "eth0.200"
    ∧ ∃ store', JSONFileLease.dump vlanLease "/cwd" emptyStore = .ok store'
        ∧ JSONFileLease.load store' "/cwd" "eth0.200" 0
            = .ok (some vlanLease) := by
  refine ⟨rfl, by decide, ⟨_, rfl, rfl⟩⟩

/-- C10: `load` validates nothing beyond the constructor's keyword
signature: any JSON object whose keys are exactly `ack`, `interface`,
`server_mac` and `obtained` loads into a `Lease` carrying those very
values, whatever they are — no check that the stored `interface` matches
the requested one, nor that `ack` holds an `options` mapping.  Such a
lease can then raise on property access: with an `ack` lacking `options`,
reading `subnet_mask` raises a bare `KeyError('options')`. -/
theorem C10_no_validation (a i s o : PyValue) (store : FileStore)
    (cwd iface : String) (now : ℚ)
    (hstore : store (get_path cwd iface) = some (.jsonText (.pyDict
      [("ack", a), ("interface", i), ("server_mac", s), ("obtained", o)]))) :
    JSONFileLease.load store cwd iface now = .ok (some ⟨a, i, s, o⟩)
    ∧ Lease.subnet_mask ⟨.pyDict [], i, s, o⟩
        = .error (.keyError "options") := by
  constructor
  · unfold JSONFileLease.load
    rw [hstore]
    simp [constructLease, lookupKey]
  · rfl

/-- C10 witness: a record whose `ack` is a bare string, whose `interface`
is `wlan1` and whose `obtained` is a string still loads for `eth0`. -/
theorem C10_witness :
    JSONFileLease.load
      (singleFileStore (get_path "/cwd" "eth0") (.jsonText (.pyDict
        [("ack", .pyStr "junk"), ("interface", .pyStr "wlan1"),
         ("server_mac", .pyInt 7), ("obtained", .pyStr "never")])))
      "/cwd" "eth0" 0
      = .ok (some ⟨.pyStr "junk", .pyStr "wlan1", .pyInt 7, .pyStr "never"⟩)
    ∧ Lease.subnet_mask
        ⟨.pyDict [], .pyStr "wlan1", .pyInt 7, .pyStr "never"⟩
        = .error (.keyError "options") :=
  C10_no_validation (.pyStr "junk") (.pyStr "wlan1") (.pyInt 7)
    (.pyStr "never") _ "/cwd" "eth0" 0 rfl

/-! ## Hook orchestrator claim -/

/-- C1 (spec-modelled): `run_hooks` is a total function of the hook
sequence, lease, trigger and timeout — no hook misbehavior makes it raise —
and it returns only with a recorded terminal outcome for *every* hook, in
order; every hook whose outcome is a timeout has the error line
`Hook '<name>' timed out` in the log, and every hook whose outcome is a
failure has the error line `Hook <name> failed: <description>` in the
log. -/
theorem runOneHook_timedOut_log (timeout : ℚ) (lease : Lease) (h : Hook)
    (hout : (runOneHook timeout lease h).1 = .timedOut) :
    (runOneHook timeout lease h).2
      = ["Hook '" ++ h.name ++ "' timed out"] := by
  unfold runOneHook at hout ⊢
  revert hout
  cases h.behavior lease with
  | completes d =>
    intro hout
    by_cases hle : d ≤ timeout
    · simp [hle] at hout
    · simp [hle]
  | raises d desc =>
    intro hout
    by_cases hle : d ≤ timeout
    · simp [hle] at hout
    · simp [hle]
  | hangs => intro hout; rfl

theorem runOneHook_failed_log (timeout : ℚ) (lease : Lease) (h : Hook)
    (desc : String)
    (hout : (runOneHook timeout lease h).1 = .failed desc) :
    (runOneHook timeout lease h).2
      = ["Hook " ++ h.name ++ " failed: " ++ desc] := by
  unfold runOneHook at hout ⊢
  revert hout
  cases h.behavior lease with
  | completes d =>
    intro hout
    by_cases hle : d ≤ timeout <;> simp [hle] at hout
  | raises d desc' =>
    intro hout
    by_cases hle : d ≤ timeout
    · simp [hle] at hout ⊢
      rw [hout]
    · simp [hle] at hout
  | hangs =>
    intro hout
    simp at hout

/-- Unfolding `run_hooks` one hook at a time. -/
theorem run_hooks_cons (h : Hook) (rest : List Hook) (lease : Lease)
    (trigger : Trigger) (timeout : ℚ) :
    run_hooks (h :: rest) lease trigger timeout
      = ((h.name, (runOneHook timeout lease h).1)
            :: (run_hooks rest lease trigger timeout).1,
         (runOneHook timeout lease h).2
            ++ (run_hooks rest lease trigger timeout).2) := rfl

theorem C1_run_hooks_contained (hks : List Hook) (lease : Lease)
    (trigger : Trigger) (timeout : ℚ) :
    (run_hooks hks lease trigger timeout).1
      = hks.map (fun h => (h.name, (runOneHook timeout lease h).1))
    ∧ (∀ h ∈ hks, (runOneHook timeout lease h).1 = .timedOut →
        ("Hook '" ++ h.name ++ "' timed out")
          ∈ (run_hooks hks lease trigger timeout).2)
    ∧ (∀ h ∈ hks, ∀ desc, (runOneHook timeout lease h).1 = .failed desc →
        ("Hook " ++ h.name ++ " failed: " ++ desc)
          ∈ (run_hooks hks lease trigger timeout).2) := by
  induction hks with
  | nil => exact ⟨rfl, by simp, by simp⟩
  | cons h rest ih =>
    refine ⟨?_, ?_, ?_⟩
    · rw [run_hooks_cons, List.map_cons]
      exact congrArg _ ih.1
    · intro h' hmem hout
      rw [run_hooks_cons]
      rcases List.mem_cons.mp hmem with heq | hmem'
      · subst heq
        exact List.mem_append.mpr (Or.inl (by
          rw [runOneHook_timedOut_log timeout lease h' hout]
          exact List.mem_singleton.mpr rfl))
      · exact List.mem_append.mpr (Or.inr (ih.2.1 h' hmem' hout))
    · intro h' hmem desc hout
      rw [run_hooks_cons]
      rcases List.mem_cons.mp hmem with heq | hmem'
      · subst heq
        exact List.mem_append.mpr (Or.inl (by
          rw [runOneHook_failed_log timeout lease h' desc hout]
          exact List.mem_singleton.mpr rfl))
      · exact List.mem_append.mpr (Or.inr (ih.2.2 h' hmem' desc hout))

/-- The sleeping hook of `test_hook_timeout`: never completes within any
finite timeout below 10 seconds (modelled as hanging past the deadline). -/
def sleepyHook : Hook := ⟨"sleepy_hook", fun _ => .hangs⟩

/-- The raising hook of `test_failing_hook`. -/
def failingHook : Hook :=
  ⟨"failing_hook", fun _ => .raises 0 "RuntimeError('boom')"⟩

/-- C1 witness: running the sleeping hook and the raising hook on the fake
lease with a 1-second timeout logs the timeout line for the first and the
failure line for the second, and records a terminal outcome for both. -/
theorem C1_witness :
    (run_hooks [sleepyHook, failingHook] fakeLease .BOUND 1).1
      = [("sleepy_hook", .timedOut),
         ("failing_hook", .failed "RuntimeError('boom')")]
    ∧ ("Hook 'sleepy_hook' timed out")
        ∈ (run_hooks [sleepyHook, failingHook] fakeLease .BOUND 1).2
    ∧ ("Hook failing_hook failed: RuntimeError('boom')")
        ∈ (run_hooks [sleepyHook, failingHook] fakeLease .BOUND 1).2 := by
  have h := C1_run_hooks_contained [sleepyHook, failingHook] fakeLease
    .BOUND 1
  refine ⟨by rw [h.1]; rfl, ?_, ?_⟩
  · exact h.2.1 sleepyHook (by simp) rfl
  · exact h.2.2 failingHook (by simp) "RuntimeError('boom')" rfl
